import Mathlib

/-!
# Shallow embedding of `matgl` (MEGNet model + graph converter)

Source files embedded:
* `src/matgl/models/megnet.py` — the `MEGNet` module: constructor, `as_dict`,
  `from_dict`, `from_dir`, `load`, `forward`.
* `src/matgl/graph/converters.py` — `GraphConverter.get_graph_from_processed_structure`.

Conventions of the embedding:
* Python floats are modelled as `ℚ` (the claims under study are structural, not
  about rounding).
* Python exceptions are modelled by `Except String _`; the string is the kind
  of error raised.
* Sub-modules whose classes live outside the two source files (`MLP`,
  `MEGNetBlock`, `EdgeSet2Set`, dgl's `Set2Set`, activation modules) are kept
  abstract: at construction time we record the arguments the constructor passes
  to them (`MLPCfg`, `BlockCfg`, `S2SCfg`); in `forward` they are opaque
  functions supplied by the model value, exactly as the Python method calls
  them as black boxes.
* Fresh (random) parameter initialisation by torch is modelled by an explicit
  `Weights` argument to the constructor.
-/

deriving instance DecidableEq for Except

/-- Flat container for a module's learned parameters (torch `state_dict`).
Kept abstract as a list of rationals; `load_state_dict` replaces it wholesale. -/
abbrev Weights := List ℚ

/-- Torch devices that appear in `megnet.py` (`"cuda"`, `"cpu"`, `"mps"`). -/
inductive Device where
  | cpu
  | cuda
  | mps
deriving DecidableEq, Repr

/-- The four activation modules the constructor can select
(`nn.SiLU`, `nn.Sigmoid`, `nn.Tanh`, `SoftPlus2`). -/
inductive Activation where
  | silu
  | sigmoid
  | tanh
  | softplus2
deriving DecidableEq, Repr

/-- Embedding of `megnet.py` lines 103–112: the activation-selection chain of
`MEGNet.__init__`. An unrecognized name raises
`Exception("Undefined activation type, ...")`. -/
def selectActivation (act : String) : Except String Activation :=
  if act = "swish" then Except.ok Activation.silu
  else if act = "sigmoid" then Except.ok Activation.sigmoid
  else if act = "tanh" then Except.ok Activation.tanh
  else if act = "softplus2" then Except.ok Activation.softplus2
  else Except.error "Undefined activation type, please try using swish, sigmoid, tanh, softplus2"

/-- A graph transformation as passed to the constructor: either the
`torch.nn.Identity()` default or some caller-supplied transformation
(identified by a tag; its behaviour is given by an environment when applied). -/
inductive GTrans where
  | identity
  | other (tag : ℕ)
deriving DecidableEq, Repr

/-- Semantics of a `GTrans`: `Identity()` is the identity function on graphs;
a caller-supplied transformation's behaviour comes from the environment. -/
def applyGTrans {G : Type} (env : ℕ → G → G) : GTrans → G → G
  | GTrans.identity => fun g => g
  | GTrans.other t => env t

/-- The keyword arguments of `MEGNet.__init__` (`megnet.py` lines 35–59).
Optional (`| None`) parameters are `Option`s. The `node_embed`/`edge_embed`/
`attr_embed` module arguments are abstract (only their presence matters to the
constructor); extra `**kwargs` are not modelled (no claim involves them). -/
structure ModelArgs where
  node_embedding_dim : ℕ
  edge_embedding_dim : ℕ
  attr_embedding_dim : ℕ
  num_blocks : ℕ
  hiddens : List ℕ
  conv_hiddens : List ℕ
  s2s_num_layers : ℕ
  s2s_num_iters : ℕ
  output_hiddens : List ℕ
  act : String
  is_classification : Bool
  node_embed : Option Unit
  edge_embed : Option Unit
  attr_embed : Option Unit
  include_states : Bool
  dropout : Option ℚ
  graph_transformations : Option (List GTrans)
  element_types : Option (List String)
  cutoff : Option ℚ
  data_mean : Option ℚ
  data_std : Option ℚ
  device : Option Device
deriving DecidableEq, Repr

/-- Arguments the constructor passes to `matgl.layers.core.MLP`
(`megnet.py` lines 114–116 and 140–146). The `MLP` class itself is outside the
embedded sources, so only its construction arguments are recorded. -/
structure MLPCfg where
  dims : List ℕ
  activation : Activation
  activate_last : Bool
  device : Option Device
deriving DecidableEq, Repr

/-- Arguments the constructor passes to `matgl.layers.graph_conv.MEGNetBlock`
(`megnet.py` lines 120–133). -/
structure BlockCfg where
  dims : List ℕ
  conv_hiddens : List ℕ
  dropout : Option ℚ
  act : Activation
  skip : Bool
  device : Option Device
deriving DecidableEq, Repr

/-- Arguments passed to `Set2Set` / `EdgeSet2Set` (`megnet.py` lines 136–138). -/
structure S2SCfg where
  in_dim : ℕ
  n_iters : ℕ
  n_layers : ℕ
deriving DecidableEq, Repr

/-- A constructed `MEGNet` object: the attributes `__init__` assigns to `self`,
plus the learned parameters (`state_dict`) as `weights`. -/
structure MEGNetCfg where
  model_args : ModelArgs
  element_types : Option (List String)
  cutoff : Option ℚ
  data_mean : Option ℚ
  data_std : Option ℚ
  edge_embed : Option Unit
  node_embed : Option Unit
  attr_embed : Option Unit
  activation : Activation
  edge_encoder : MLPCfg
  node_encoder : MLPCfg
  attr_encoder : MLPCfg
  blocks : List BlockCfg
  edge_s2s : S2SCfg
  node_s2s : S2SCfg
  output_proj : MLPCfg
  dropout : Option ℚ
  is_classification : Bool
  graph_transformations : List GTrans
  include_states : Bool
  weights : Weights
deriving DecidableEq, Repr

/-- Python `IndexError` from `xs[-1]` on an empty list, `Except.ok` of the last
element otherwise (`megnet.py` lines 118–119 read `hiddens[-1]` and
`conv_hiddens[-1]`). -/
def lastOrIndexError (xs : List ℕ) : Except String ℕ :=
  match xs.getLast? with
  | some d => Except.ok d
  | none => Except.error "IndexError: list index out of range"

/-- Embedding of `MEGNet.__init__` (`megnet.py` lines 35–153). `w` is the fresh random
parameter initialisation performed by torch when the sub-modules are built.
Mirrors the source order: `model_args` is captured from `locals()` at entry
(line 81); the activation chain (lines 103–112) runs before `hiddens[-1]` /
`conv_hiddens[-1]` are read (lines 118–119), which raise `IndexError` on empty
lists; `Dropout(dropout) if dropout else None` (line 148) tests Python
truthiness, so `dropout=0.0` also yields `None`; line 152's
`graph_transformations or [Identity()] * num_blocks` likewise replaces both
`None` and an empty list by the default. -/
def megnetInit (a : ModelArgs) (w : Weights) : Except String MEGNetCfg := do
  let node_dims := a.node_embedding_dim :: a.hiddens
  let edge_dims := a.edge_embedding_dim :: a.hiddens
  let attr_dims := a.attr_embedding_dim :: a.hiddens
  let activation ← selectActivation a.act
  let edge_encoder : MLPCfg := ⟨edge_dims, activation, true, a.device⟩
  let node_encoder : MLPCfg := ⟨node_dims, activation, true, a.device⟩
  let attr_encoder : MLPCfg := ⟨attr_dims, activation, true, a.device⟩
  let blocks_in_dim ← lastOrIndexError a.hiddens
  let block_out_dim ← lastOrIndexError a.conv_hiddens
  let firstBlock : BlockCfg := ⟨[blocks_in_dim], a.conv_hiddens, a.dropout, activation, true, a.device⟩
  let otherBlocks : List BlockCfg :=
    (List.range (a.num_blocks - 1)).map
      (fun _ => ⟨block_out_dim :: a.hiddens, a.conv_hiddens, a.dropout, activation, true, a.device⟩)
  let blocks := firstBlock :: otherBlocks
  let edge_s2s : S2SCfg := ⟨block_out_dim, a.s2s_num_iters, a.s2s_num_layers⟩
  let node_s2s : S2SCfg := ⟨block_out_dim, a.s2s_num_iters, a.s2s_num_layers⟩
  let output_proj : MLPCfg :=
    ⟨(2 * 2 * block_out_dim + block_out_dim) :: (a.output_hiddens ++ [1]), activation, false, a.device⟩
  let dropout := match a.dropout with
    | some p => if p = 0 then none else some p
    | none => none
  let graph_transformations := match a.graph_transformations with
    | some l => if l.isEmpty then List.replicate a.num_blocks GTrans.identity else l
    | none => List.replicate a.num_blocks GTrans.identity
  Except.ok
    { model_args := a
      element_types := a.element_types
      cutoff := a.cutoff
      data_mean := a.data_mean
      data_std := a.data_std
      edge_embed := a.edge_embed
      node_embed := a.node_embed
      attr_embed := a.attr_embed
      activation := activation
      edge_encoder := edge_encoder
      node_encoder := node_encoder
      attr_encoder := attr_encoder
      blocks := blocks
      edge_s2s := edge_s2s
      node_s2s := node_s2s
      output_proj := output_proj
      dropout := dropout
      is_classification := a.is_classification
      graph_transformations := graph_transformations
      include_states := a.include_states
      weights := w }

/-- Result type of `MEGNet.as_dict` (`megnet.py` lines 155–157): the saved dictionary is the
`state_dict` together with the construction arguments recorded at `__init__`. -/
structure SavedDict where
  state_dict : Weights
  model_args : ModelArgs
deriving DecidableEq, Repr

/-- Embedding of `MEGNet.as_dict` (`megnet.py` lines 155–157). -/
def MEGNetCfg.as_dict (m : MEGNetCfg) : SavedDict :=
  { state_dict := m.weights, model_args := m.model_args }

/-- The device computation of `MEGNet.from_dict` (`megnet.py` lines 164–167):
`device = torch.device("cuda" if torch.cuda.is_available() else "cpu")` is
immediately rebound by
`device = torch.device("mps" if torch.backends.mps.is_available() else "cpu")`. -/
def fromDictDevice (cudaAvailable mpsAvailable : Bool) : Device :=
  let _device := if cudaAvailable then Device.cuda else Device.cpu
  let device := if mpsAvailable then Device.mps else Device.cpu
  device

/-- The argument dictionary actually passed to the constructor by
`MEGNet.from_dict` (`megnet.py` line 168): the saved `model_args` with the
`device` entry overwritten by the freshly computed device. -/
def fromDictArgs (d : SavedDict) (cudaAvailable mpsAvailable : Bool) : ModelArgs :=
  { d.model_args with device := some (fromDictDevice cudaAvailable mpsAvailable) }

/-- Embedding of `MEGNet.from_dict` (`megnet.py` lines 159–171): rewrite the device, build
the model from the saved construction arguments (torch gives the sub-modules a
fresh initialisation `w`), then `load_state_dict` replaces all parameters with
the saved `state_dict`. -/
def MEGNet_from_dict (d : SavedDict) (cudaAvailable mpsAvailable : Bool)
    (w : Weights) : Except String MEGNetCfg := do
  let model ← megnetInit (fromDictArgs d cudaAvailable mpsAvailable) w
  Except.ok { model with weights := d.state_dict }

/-- The filesystem and checkpoint store visible to `from_dir` / `load`:
which paths are directories, their listings, and what `torch.load` yields on
the checkpoint file at a path (`none` = the load raises). A loaded checkpoint
is the `state["model"]` sub-dictionary consumed by `from_dict`
(`megnet.py` line 184). -/
structure FS where
  isDir : String → Bool
  listDir : String → List String
  readModel : String → Option SavedDict

/-- Embedding of `MEGNet.from_dir` (`megnet.py` lines 173–185): `torch.load` the checkpoint
in the directory (raising if it cannot be read), then `from_dict` on its
`"model"` entry. -/
def MEGNet_from_dir (path : String) (fs : FS) (cudaAvailable mpsAvailable : Bool)
    (w : Weights) : Except String MEGNetCfg :=
  match fs.readModel path with
  | none => Except.error "torch.load: cannot load megnet.pt"
  | some d => MEGNet_from_dict d cudaAvailable mpsAvailable w

/-- Embedding of `MODEL_PATHS` (`megnet.py` lines 24–27): names of the bundled pretrained
models, each mapped to its directory path. -/
def MODEL_PATHS : List (String × String) :=
  [("MP-2018.6.1-Eform", "pretrained/MP-2018.6.1-Eform"),
   ("MP-2019.4.1-BandGap", "pretrained/MP-2019.4.1-BandGap")]

/-- Embedding of `MEGNet.load` (`megnet.py` lines 187–202): dispatch on `model_dir` — a key
of `MODEL_PATHS`, else a directory whose listing contains `megnet.pt`, else
`raise ValueError(f"{model_dir} not found in available pretrained ...")`. -/
def MEGNet_load (model_dir : String) (fs : FS) (cudaAvailable mpsAvailable : Bool)
    (w : Weights) : Except String MEGNetCfg :=
  match MODEL_PATHS.lookup model_dir with
  | some path => MEGNet_from_dir path fs cudaAvailable mpsAvailable w
  | none =>
    if fs.isDir model_dir ∧ (fs.listDir model_dir).contains "megnet.pt" then
      MEGNet_from_dir model_dir fs cudaAvailable mpsAvailable w
    else
      Except.error (model_dir ++ " not found in available pretrained")

/-- A site of a pymatgen structure as the converter reads it: only
`site.specie.symbol` is consulted (`converters.py` line 57). -/
structure Site where
  symbol : String
deriving DecidableEq, Repr

/-- Row-vector–matrix product over `ℚ` (`torch.matmul(pbc_offset, lattice)`
applied to one row): entry `j` of the result is `∑ i, r i * M i j`. Periodic
image offsets are integers, so the row is over `ℤ` (the tensor cast
`.to(matgl.int_th)` on line 53 of `converters.py` is exact on them). -/
def rowMatMul (r : List ℤ) (M : List (List ℚ)) : List ℚ :=
  (List.zipWith (fun (ri : ℤ) (Mi : List ℚ) => Mi.map (fun x => (ri : ℚ) * x)) r M).foldr
    (fun v acc => List.zipWith (· + ·) v acc)
    (List.replicate ((M.headI).length) (0 : ℚ))

/-- Embedding of `np.repeat(xs, n, axis=0)`: each leading-axis entry repeated `n` times in
place (`converters.py` line 55). -/
def npRepeat0 {α : Type} (xs : List α) (n : ℕ) : List α :=
  xs.flatMap (List.replicate n)

/-- The DGLGraph built by `get_graph_from_processed_structure`: node/edge
structure plus the `edata`/`ndata` fields the converter assigns. -/
structure DGLGraph where
  num_nodes : ℕ
  edges : List (ℕ × ℕ)
  edata_pbc_offset : List (List ℤ)
  edata_pbc_offshift : List (List ℚ)
  edata_lattice : List (List (List ℚ))
  ndata_node_type : List ℕ
  ndata_pos : List (List ℚ)
deriving DecidableEq, Repr

/-- Embedding of `GraphConverter.get_graph_from_processed_structure`
(`converters.py` lines 25–61). Fallible steps are modelled where the Python
raises: `dgl.graph((u, v), num_nodes=len(structure))` requires equal-length
endpoint lists whose entries are below the node count; `lattice_matrix[0]`
raises `IndexError` on an empty list; `element_types.index(...)` raises
`ValueError` for a symbol not in the list; `np.hstack` of the per-site
singletons raises `ValueError` when the structure has no sites. -/
def get_graph_from_processed_structure
    (structure_ : List Site)
    (src_id dst_id : List ℕ)
    (images : List (List ℤ))
    (lattice_matrix : List (List (List ℚ)))
    (element_types : List String)
    (cart_coords : List (List ℚ)) : Except String (DGLGraph × List ℚ) := do
  if src_id.length ≠ dst_id.length then
    throw "dgl.graph: u and v have different lengths"
  else if ¬ (src_id.all (· < structure_.length) ∧ dst_id.all (· < structure_.length)) then
    throw "dgl.graph: node id larger than num_nodes"
  else
    let edges := src_id.zip dst_id
    match lattice_matrix.head? with
    | none => throw "IndexError: list index out of range"
    | some lattice0 =>
      let pbc_offshift := images.map (fun r => rowMatMul r lattice0)
      let lattice := npRepeat0 lattice_matrix edges.length
      match structure_.mapM (fun s => List.findIdx? (fun t => t = s.symbol) element_types) with
      | none => throw "ValueError: x not in list"
      | some node_type =>
        if structure_.isEmpty then
          throw "ValueError: need at least one array to concatenate"
        else
          Except.ok
            ({ num_nodes := structure_.length
               edges := edges
               edata_pbc_offset := images
               edata_pbc_offshift := pbc_offshift
               edata_lattice := lattice
               ndata_node_type := node_type
               ndata_pos := cart_coords }, [0, 0])

/-- A feature tensor in the flat representation used by the forward-pass
embedding. -/
abbrev Feat := List ℚ

/-- A `MEGNet` object as `forward` (`megnet.py` lines 204–248) uses it: the
sub-modules assigned by `__init__` are called as black boxes, so they appear
here as opaque functions. `G` is the graph type, `σ` the randomness consumed
by `Dropout` (the only stochastic sub-module); `dropout` is `None` or the
dropout function. -/
structure MEGNetModel (G σ : Type) where
  edge_embed : Feat → Feat
  node_embed : Feat → Feat
  attr_embed : Feat → Feat
  edge_encoder : Feat → Feat
  node_encoder : Feat → Feat
  attr_encoder : Feat → Feat
  graph_transformations : List (G → G)
  blocks : List (G → Feat → Feat → Feat → Feat × Feat × Feat)
  node_s2s : G → Feat → Feat
  edge_s2s : G → Feat → Feat
  dropout : Option (σ → Feat → Feat)
  output_proj : Feat → Feat
  is_classification : Bool
  include_states : Bool

/-- The block loop of `forward` (`megnet.py` lines 227–230):
`for i, block in enumerate(self.blocks): graph = graph_transformations[i](graph);
edge_feat, node_feat, graph_attr = block(graph, edge_feat, node_feat, graph_attr)`.
`graph_transformations[i]` raises `IndexError` when `i` is out of range, hence
the `Option` result. -/
def runBlocks {G : Type} (gts : List (G → G)) :
    List (G → Feat → Feat → Feat → Feat × Feat × Feat) →
    G → Feat → Feat → Feat → ℕ → Option (G × Feat × Feat × Feat)
  | [], g, e, n, s, _ => some (g, e, n, s)
  | b :: bs, g, e, n, s, i =>
    match gts.get? i with
    | none => none
    | some t =>
      let g := t g
      let (e, n, s) := b g e n s
      runBlocks gts bs g e n s (i + 1)

/-- Embedding of `MEGNet.forward` (`megnet.py` lines 204–248). `sigmoid` is the elementwise
`torch.sigmoid`, `noise` is the randomness `Dropout` would consume. In the
flat feature representation `torch.squeeze` (lines 235–237) is the identity,
and `torch.hstack` (line 239) is concatenation. -/
def megforward {G σ : Type} (sigmoid : Feat → Feat) (m : MEGNetModel G σ)
    (graph : G) (edge_feat node_feat graph_attr : Feat) (noise : σ) : Option Feat :=
  let edge_feat := m.edge_encoder (m.edge_embed edge_feat)
  let node_feat := m.node_encoder (m.node_embed node_feat)
  let graph_attr :=
    if m.include_states then m.attr_embed graph_attr
    else m.attr_encoder (m.attr_embed graph_attr)
  match runBlocks m.graph_transformations m.blocks graph edge_feat node_feat graph_attr 0 with
  | none => none
  | some (graph, edge_feat, node_feat, graph_attr) =>
    let node_vec := m.node_s2s graph node_feat
    let edge_vec := m.edge_s2s graph edge_feat
    let vec := node_vec ++ edge_vec ++ graph_attr
    let vec := match m.dropout with
      | some d => d noise vec
      | none => vec
    let output := m.output_proj vec
    some (if m.is_classification then sigmoid output else output)

/-- Embedding of `MEGNet.forward` in state-passing form: the method reads attributes of
`self` but never assigns any, so the model component of the result is the
model the call started from. -/
def megforwardM {G σ : Type} (sigmoid : Feat → Feat) (m : MEGNetModel G σ)
    (graph : G) (edge_feat node_feat graph_attr : Feat) (noise : σ) :
    MEGNetModel G σ × Option Feat :=
  (m, megforward sigmoid m graph edge_feat node_feat graph_attr noise)

/-- The encoding stage as the specification sentence words it: `forward`
"first encodes the edge, node and state features" — all three are passed
through their respective encoders (after their embedding layers),
unconditionally. -/
def encodeStageSpec {G σ : Type} (m : MEGNetModel G σ) (e n s : Feat) :
    Feat × Feat × Feat :=
  (m.edge_encoder (m.edge_embed e), m.node_encoder (m.node_embed n),
   m.attr_encoder (m.attr_embed s))

/-- The encoding stage as the code actually has it: the state features pass
through `attr_encoder` only when `include_states` is false; when
`include_states` is true they are only embedded (`megnet.py` lines 222–225). -/
def encodeStageAmended {G σ : Type} (m : MEGNetModel G σ) (e n s : Feat) :
    Feat × Feat × Feat :=
  (m.edge_encoder (m.edge_embed e), m.node_encoder (m.node_embed n),
   if m.include_states then m.attr_embed s else m.attr_encoder (m.attr_embed s))

/-- The readout stage of the specified pipeline: pool nodes with `Set2Set`
and edges with `EdgeSet2Set`, concatenate the pooled vectors with the state
vector, apply dropout if configured, apply the output projection MLP, and
apply the final sigmoid exactly when `is_classification` is true. -/
def readoutStageSpec {G σ : Type} (sigmoid : Feat → Feat) (m : MEGNetModel G σ)
    (graph : G) (edge_feat node_feat graph_attr : Feat) (noise : σ) : Feat :=
  let vec := m.node_s2s graph node_feat ++ m.edge_s2s graph edge_feat ++ graph_attr
  let vec := match m.dropout with
    | some d => d noise vec
    | none => vec
  let output := m.output_proj vec
  if m.is_classification then sigmoid output else output

/-- The forward pipeline exactly as the specification claim words it:
encode all three feature tensors, run the block loop (the i-th graph
transformation before the i-th block, each block fed the previous block's
outputs), then the readout stage. -/
def megforwardSpec {G σ : Type} (sigmoid : Feat → Feat) (m : MEGNetModel G σ)
    (graph : G) (edge_feat node_feat graph_attr : Feat) (noise : σ) : Option Feat :=
  let (e, n, s) := encodeStageSpec m edge_feat node_feat graph_attr
  (runBlocks m.graph_transformations m.blocks graph e n s 0).map
    (fun r => readoutStageSpec sigmoid m r.1 r.2.1 r.2.2.1 r.2.2.2 noise)

/-- The forward pipeline with the encoding stage corrected to the code's
conditional treatment of the state features. -/
def megforwardSpecAmended {G σ : Type} (sigmoid : Feat → Feat) (m : MEGNetModel G σ)
    (graph : G) (edge_feat node_feat graph_attr : Feat) (noise : σ) : Option Feat :=
  let (e, n, s) := encodeStageAmended m edge_feat node_feat graph_attr
  (runBlocks m.graph_transformations m.blocks graph e n s 0).map
    (fun r => readoutStageSpec sigmoid m r.1 r.2.1 r.2.2.1 r.2.2.2 noise)

/-- The object `MEGNet.__init__` builds when it does not raise, as a function
of the arguments, the fresh weights, the selected activation, and the values
of `hiddens[-1]` / `conv_hiddens[-1]`. -/
def megnetCfgOf (a : ModelArgs) (w : Weights) (act : Activation) (bid bod : ℕ) : MEGNetCfg :=
  { model_args := a
    element_types := a.element_types
    cutoff := a.cutoff
    data_mean := a.data_mean
    data_std := a.data_std
    edge_embed := a.edge_embed
    node_embed := a.node_embed
    attr_embed := a.attr_embed
    activation := act
    edge_encoder := ⟨a.edge_embedding_dim :: a.hiddens, act, true, a.device⟩
    node_encoder := ⟨a.node_embedding_dim :: a.hiddens, act, true, a.device⟩
    attr_encoder := ⟨a.attr_embedding_dim :: a.hiddens, act, true, a.device⟩
    blocks := ⟨[bid], a.conv_hiddens, a.dropout, act, true, a.device⟩ ::
      (List.range (a.num_blocks - 1)).map
        (fun _ => ⟨bod :: a.hiddens, a.conv_hiddens, a.dropout, act, true, a.device⟩)
    edge_s2s := ⟨bod, a.s2s_num_iters, a.s2s_num_layers⟩
    node_s2s := ⟨bod, a.s2s_num_iters, a.s2s_num_layers⟩
    output_proj := ⟨(2 * 2 * bod + bod) :: (a.output_hiddens ++ [1]), act, false, a.device⟩
    dropout := match a.dropout with
      | some p => if p = 0 then none else some p
      | none => none
    is_classification := a.is_classification
    graph_transformations := match a.graph_transformations with
      | some l => if l.isEmpty then List.replicate a.num_blocks GTrans.identity else l
      | none => List.replicate a.num_blocks GTrans.identity
    include_states := a.include_states
    weights := w }

theorem megnetInit_ok_of (a : ModelArgs) (w : Weights) (act : Activation) (bid bod : ℕ)
    (h1 : selectActivation a.act = Except.ok act)
    (h2 : a.hiddens.getLast? = some bid)
    (h3 : a.conv_hiddens.getLast? = some bod) :
    megnetInit a w = Except.ok (megnetCfgOf a w act bid bod) := by
  unfold megnetInit lastOrIndexError
  rw [h1, h2, h3]
  rfl

theorem megnetInit_err_act (a : ModelArgs) (w : Weights) (e : String)
    (h : selectActivation a.act = Except.error e) :
    megnetInit a w = Except.error e := by
  unfold megnetInit
  rw [h]
  rfl

theorem megnetInit_err_hiddens (a : ModelArgs) (w : Weights) (act : Activation)
    (h1 : selectActivation a.act = Except.ok act)
    (h2 : a.hiddens.getLast? = none) :
    megnetInit a w = Except.error "IndexError: list index out of range" := by
  unfold megnetInit lastOrIndexError
  rw [h1, h2]
  rfl

theorem megnetInit_err_conv (a : ModelArgs) (w : Weights) (act : Activation) (bid : ℕ)
    (h1 : selectActivation a.act = Except.ok act)
    (h2 : a.hiddens.getLast? = some bid)
    (h3 : a.conv_hiddens.getLast? = none) :
    megnetInit a w = Except.error "IndexError: list index out of range" := by
  unfold megnetInit lastOrIndexError
  rw [h1, h2, h3]
  rfl

theorem megnetInit_ok_inv (a : ModelArgs) (w : Weights) (m : MEGNetCfg)
    (h : megnetInit a w = Except.ok m) :
    ∃ act bid bod, selectActivation a.act = Except.ok act
      ∧ a.hiddens.getLast? = some bid
      ∧ a.conv_hiddens.getLast? = some bod
      ∧ m = megnetCfgOf a w act bid bod := by
  cases ha : selectActivation a.act with
  | error e => rw [megnetInit_err_act a w e ha] at h; exact absurd h (by simp)
  | ok act =>
    cases hh : a.hiddens.getLast? with
    | none => rw [megnetInit_err_hiddens a w act ha hh] at h; exact absurd h (by simp)
    | some bid =>
      cases hc : a.conv_hiddens.getLast? with
      | none => rw [megnetInit_err_conv a w act bid ha hh hc] at h; exact absurd h (by simp)
      | some bod =>
        rw [megnetInit_ok_of a w act bid bod ha hh hc] at h
        exact ⟨act, bid, bod, rfl, rfl, rfl, (Except.ok.inj h).symm⟩

theorem selectActivation_ok_inv (act : String) (v : Activation)
    (h : selectActivation act = Except.ok v) :
    act = "swish" ∨ act = "sigmoid" ∨ act = "tanh" ∨ act = "softplus2" := by
  unfold selectActivation at h
  repeat' split at h
  all_goals simp_all

theorem selectActivation_err_of (act : String)
    (h : ¬ (act = "swish" ∨ act = "sigmoid" ∨ act = "tanh" ∨ act = "softplus2")) :
    selectActivation act =
      Except.error "Undefined activation type, please try using swish, sigmoid, tanh, softplus2" := by
  push_neg at h
  obtain ⟨h1, h2, h3, h4⟩ := h
  unfold selectActivation
  rw [if_neg h1, if_neg h2, if_neg h3, if_neg h4]

/-- A typical argument set for `MEGNet` (the standard formation-energy
architecture); used as concrete input by several witnesses. -/
def stdArgs : ModelArgs :=
  { node_embedding_dim := 16
    edge_embedding_dim := 100
    attr_embedding_dim := 2
    num_blocks := 3
    hiddens := [64, 32]
    conv_hiddens := [64, 64, 32]
    s2s_num_layers := 1
    s2s_num_iters := 2
    output_hiddens := [32, 16]
    act := "swish"
    is_classification := true
    node_embed := none
    edge_embed := none
    attr_embed := none
    include_states := false
    dropout := none
    graph_transformations := none
    element_types := none
    cutoff := none
    data_mean := none
    data_std := none
    device := none }

/-- A filesystem with no directories and no loadable checkpoints. -/
def fsEmpty : FS :=
  { isDir := fun _ => false
    listDir := fun _ => []
    readModel := fun _ => none }

/-- C2: the claim as stated is false — with the recognized activation name
`"swish"` but empty `hiddens`, the constructor still raises (`hiddens[-1]`
is an `IndexError`), so construction raising is not equivalent to the
activation name being unrecognized. -/
theorem c2_counterexample :
    megnetInit { stdArgs with hiddens := [] } [] =
      Except.error "IndexError: list index out of range"
    ∧ ({ stdArgs with hiddens := [] } : ModelArgs).act = "swish" := by
  constructor
  · rfl
  · rfl

/-- C2 (amended): construction raises iff the activation name is
unrecognized or `hiddens` is empty or `conv_hiddens` is empty; whenever it
succeeds, the activation selected for a recognized name is the corresponding
module (SiLU, Sigmoid, Tanh, SoftPlus2 respectively). -/
theorem megnet_construction_raises_iff (a : ModelArgs) (w : Weights) :
    ((∃ e, megnetInit a w = Except.error e) ↔
      (¬ (a.act = "swish" ∨ a.act = "sigmoid" ∨ a.act = "tanh" ∨ a.act = "softplus2")
        ∨ a.hiddens = [] ∨ a.conv_hiddens = []))
    ∧ (∀ m, megnetInit a w = Except.ok m →
        ((a.act = "swish" → m.activation = Activation.silu)
          ∧ (a.act = "sigmoid" → m.activation = Activation.sigmoid)
          ∧ (a.act = "tanh" → m.activation = Activation.tanh)
          ∧ (a.act = "softplus2" → m.activation = Activation.softplus2))) := by
  constructor
  · constructor
    · rintro ⟨e, he⟩
      by_contra hc
      push_neg at hc
      obtain ⟨hact, hh, hcv⟩ := hc
      obtain ⟨v, hv⟩ : ∃ v, selectActivation a.act = Except.ok v := by
        rcases hact with h | h | h | h <;> rw [h] <;> exact ⟨_, rfl⟩
      obtain ⟨bid, hbid⟩ : ∃ b, a.hiddens.getLast? = some b := by
        cases hgl : a.hiddens.getLast? with
        | none => exact absurd (List.getLast?_eq_none_iff.mp hgl) hh
        | some b => exact ⟨b, rfl⟩
      obtain ⟨bod, hbod⟩ : ∃ b, a.conv_hiddens.getLast? = some b := by
        cases hgl : a.conv_hiddens.getLast? with
        | none => exact absurd (List.getLast?_eq_none_iff.mp hgl) hcv
        | some b => exact ⟨b, rfl⟩
      rw [megnetInit_ok_of a w v bid bod hv hbid hbod] at he
      exact absurd he (by simp)
    · rintro (h | h | h)
      · exact ⟨_, megnetInit_err_act a w _ (selectActivation_err_of a.act h)⟩
      · cases ha : selectActivation a.act with
        | error e => exact ⟨e, megnetInit_err_act a w e ha⟩
        | ok v =>
          exact ⟨_, megnetInit_err_hiddens a w v ha (by rw [h]; rfl)⟩
      · cases ha : selectActivation a.act with
        | error e => exact ⟨e, megnetInit_err_act a w e ha⟩
        | ok v =>
          cases hh : a.hiddens.getLast? with
          | none => exact ⟨_, megnetInit_err_hiddens a w v ha hh⟩
          | some bid => exact ⟨_, megnetInit_err_conv a w v bid ha hh (by rw [h]; rfl)⟩
  · intro m hm
    obtain ⟨act, bid, bod, hact, _, _, hmEq⟩ := megnetInit_ok_inv a w m hm
    subst hmEq
    refine ⟨?_, ?_, ?_, ?_⟩ <;> intro h <;> rw [h] at hact <;>
      simp +decide [selectActivation] at hact <;> simp [megnetCfgOf, hact]

/-- C2 witness: at the standard arguments (`act = "swish"`), construction
succeeds and the theorem yields that the selected activation is SiLU. -/
theorem c2_witness :
    (megnetInit stdArgs []).toOption.map MEGNetCfg.activation = some Activation.silu := by
  obtain ⟨m, hm⟩ : ∃ m, megnetInit stdArgs [] = Except.ok m := ⟨_, rfl⟩
  have h := ((megnet_construction_raises_iff stdArgs []).2 m hm).1 rfl
  rw [hm]
  simp [Except.toOption, h]

/-- C1: the claim is false — an unrecognized-activation error is not the only
error path: `MEGNet.load` on a model name that is neither a bundled
pretrained key nor an existing directory raises `ValueError`. -/
theorem c1_counterexample :
    MEGNet_load "my-model" fsEmpty false false [] =
      Except.error "my-model not found in available pretrained" := by
  rfl

/-- C1 (amended): `MEGNet.load` raises a `ValueError` whenever `model_dir`
is neither a key of `MODEL_PATHS` nor a directory whose listing contains
`megnet.pt`; raising on an unrecognized activation name is therefore not the
only error path of the program. -/
theorem megnet_load_error_path (model_dir : String) (fs : FS) (cuda mps : Bool)
    (w : Weights)
    (h1 : MODEL_PATHS.lookup model_dir = none)
    (h2 : ¬ (fs.isDir model_dir ∧ (fs.listDir model_dir).contains "megnet.pt")) :
    MEGNet_load model_dir fs cuda mps w =
      Except.error (model_dir ++ " not found in available pretrained") := by
  unfold MEGNet_load
  rw [h1]
  exact if_neg h2

/-- C1 witness: the amended theorem applied to a concrete unrecognized
directory name on an empty filesystem. -/
theorem c1_witness :
    MEGNet_load "foo" fsEmpty true true [1] =
      Except.error "foo not found in available pretrained" :=
  megnet_load_error_path "foo" fsEmpty true true [1] (by rfl) (by decide)

/-- C8: whenever `get_graph_from_processed_structure` returns, the returned
state attribute is the constant `[0.0, 0.0]`, independent of all inputs. -/
theorem converter_state_attr_constant
    (structure_ : List Site) (src_id dst_id : List ℕ) (images : List (List ℤ))
    (lattice_matrix : List (List (List ℚ))) (element_types : List String)
    (cart_coords : List (List ℚ)) (g : DGLGraph) (sa : List ℚ)
    (h : get_graph_from_processed_structure structure_ src_id dst_id images
          lattice_matrix element_types cart_coords = Except.ok (g, sa)) :
    sa = [0, 0] := by
  unfold get_graph_from_processed_structure at h
  repeat' split at h
  all_goals simp_all

/-- C8 witness: a two-site MoS-like structure with two bonds; the converter
succeeds and the theorem yields the constant state attribute. -/
theorem c8_witness :
    (get_graph_from_processed_structure [⟨"Mo"⟩, ⟨"S"⟩] [0, 1] [1, 0]
        [[0, 0, 0], [0, 0, -1]] [[[3, 0, 0], [0, 3, 0], [0, 0, 3]]]
        ["Mo", "S"] [[0, 0, 0], [1, 1, 1]]).map Prod.snd = Except.ok [0, 0] := by
  obtain ⟨⟨g, sa⟩, hp⟩ :
      ∃ p, get_graph_from_processed_structure [⟨"Mo"⟩, ⟨"S"⟩] [0, 1] [1, 0]
        [[0, 0, 0], [0, 0, -1]] [[[3, 0, 0], [0, 3, 0], [0, 0, 3]]]
        ["Mo", "S"] [[0, 0, 0], [1, 1, 1]] = Except.ok p := ⟨_, rfl⟩
  have hsa := converter_state_attr_constant _ _ _ _ _ _ _ g sa hp
  rw [hp, hsa]
  simp [Except.map]

/-- C9: the argument dictionary `MEGNet.from_dict` passes to the constructor
never carries the CUDA device: the CUDA-based assignment on line 165 is
unconditionally overwritten by the MPS check on line 167, so the stored
device is `"mps"` when MPS is available and `"cpu"` otherwise. -/
theorem from_dict_never_cuda (d : SavedDict) (cudaAvailable mpsAvailable : Bool) :
    (fromDictArgs d cudaAvailable mpsAvailable).device =
        some (if mpsAvailable then Device.mps else Device.cpu)
    ∧ (fromDictArgs d cudaAvailable mpsAvailable).device ≠ some Device.cuda := by
  unfold fromDictArgs fromDictDevice
  constructor
  · cases mpsAvailable <;> rfl
  · cases mpsAvailable <;> simp

/-- Pointwise reading of a successful `Option`-valued `mapM`: the i-th output
is the function applied to the i-th input. -/
theorem mapM_option_get? {α β : Type} (f : α → Option β) :
    ∀ (l : List α) (r : List β), l.mapM f = some r →
      ∀ i, r.get? i = (l.get? i).bind f := by
  intro l
  induction l with
  | nil =>
    intro r h i
    rw [List.mapM_nil] at h
    cases h
    simp
  | cons a t ih =>
    intro r h i
    rw [List.mapM_cons] at h
    cases hfa : f a with
    | none => rw [hfa] at h; simp at h
    | some b =>
      rw [hfa] at h
      cases hmt : t.mapM f with
      | none => rw [hmt] at h; simp at h
      | some bs =>
        rw [hmt] at h
        simp at h
        subst h
        cases i with
        | zero => simp [hfa]
        | succ j => simpa using ih bs hmt j

/-- C3: on a processed structure with equally long endpoint lists whose
entries are valid node ids, at least one site, a single lattice matrix, and
sites whose symbols all occur in `element_types`, the converter returns the
graph the claim describes: `len(structure)` nodes, the i-th edge
`(src_id[i], dst_id[i])`, edge data holding the periodic offsets, the offsets
multiplied by `lattice_matrix[0]`, and the lattice matrix repeated once per
edge, and node data holding each site's index in `element_types` and the
Cartesian coordinates; the state attribute is `[0.0, 0.0]`. -/
theorem converter_graph_correct
    (structure_ : List Site) (src_id dst_id : List ℕ) (images : List (List ℤ))
    (lattice0 : List (List ℚ)) (element_types : List String)
    (cart_coords : List (List ℚ)) (node_type : List ℕ)
    (hlen : src_id.length = dst_id.length)
    (hsrc : ∀ x ∈ src_id, x < structure_.length)
    (hdst : ∀ x ∈ dst_id, x < structure_.length)
    (hne : structure_ ≠ [])
    (hidx : structure_.mapM
        (fun s => List.findIdx? (fun t => t = s.symbol) element_types) = some node_type) :
    get_graph_from_processed_structure structure_ src_id dst_id images [lattice0]
        element_types cart_coords =
      Except.ok
        ({ num_nodes := structure_.length
           edges := src_id.zip dst_id
           edata_pbc_offset := images
           edata_pbc_offshift := images.map (fun r => rowMatMul r lattice0)
           edata_lattice := List.replicate (src_id.zip dst_id).length lattice0
           ndata_node_type := node_type
           ndata_pos := cart_coords }, [0, 0])
    ∧ (∀ i x y, src_id.get? i = some x → dst_id.get? i = some y →
        (src_id.zip dst_id).get? i = some (x, y))
    ∧ (∀ j, node_type.get? j =
        (structure_.get? j).bind
          (fun s => List.findIdx? (fun t => t = s.symbol) element_types)) := by
  refine ⟨?_, ?_, mapM_option_get? _ structure_ node_type hidx⟩
  · have hemp : structure_.isEmpty = false := by
      cases structure_ with
      | nil => exact absurd rfl hne
      | cons a t => rfl
    unfold get_graph_from_processed_structure
    rw [if_neg (by simp [hlen])]
    rw [if_neg (by
      simp only [not_not]
      constructor
      · exact List.all_eq_true.mpr (fun x hx => decide_eq_true (hsrc x hx))
      · exact List.all_eq_true.mpr (fun x hx => decide_eq_true (hdst x hx)))]
    simp only [List.head?_cons]
    rw [hidx]
    rw [hemp]
    simp only [Bool.false_eq_true, if_false]
    unfold npRepeat0
    simp
  · intro i x y hx hy
    exact (List.get?_zip_eq_some src_id dst_id (x, y) i).mpr ⟨hx, hy⟩

/-- C3 witness: the converter on a concrete two-site structure with two
periodic bonds, evaluated against the theorem's description. -/
theorem c3_witness :
    get_graph_from_processed_structure [⟨"Mo"⟩, ⟨"S"⟩] [0, 1] [1, 0]
        [[0, 0, 0], [0, 0, -1]] [[[3, 0, 0], [0, 3, 0], [0, 0, 3]]]
        ["Mo", "S"] [[0, 0, 0], [1, 1, 1]] =
      Except.ok
        ({ num_nodes := 2
           edges := [(0, 1), (1, 0)]
           edata_pbc_offset := [[0, 0, 0], [0, 0, -1]]
           edata_pbc_offshift := [[0, 0, 0], [0, 0, -3]]
           edata_lattice := [[[3, 0, 0], [0, 3, 0], [0, 0, 3]],
                             [[3, 0, 0], [0, 3, 0], [0, 0, 3]]]
           ndata_node_type := [0, 1]
           ndata_pos := [[0, 0, 0], [1, 1, 1]] }, [0, 0]) := by
  have h := (converter_graph_correct [⟨"Mo"⟩, ⟨"S"⟩] [0, 1] [1, 0]
    [[0, 0, 0], [0, 0, -1]] [[3, 0, 0], [0, 3, 0], [0, 0, 3]]
    ["Mo", "S"] [[0, 0, 0], [1, 1, 1]] [0, 1]
    (by decide) (by decide) (by decide) (by decide) (by decide)).1
  rw [h]
  norm_num [rowMatMul, List.replicate_succ, List.replicate_zero]

/-- C5: the claim as stated is false — saving then loading is not the
identity on the construction arguments: at the standard arguments
(`device = None`) with neither CUDA nor MPS available, `from_dict` succeeds
but stores `device = cpu` into the arguments, so the reloaded model's
`model_args` differ from the original's. -/
theorem c5_counterexample :
    ((megnetInit stdArgs [1]).bind
        (fun m => (MEGNet_from_dict m.as_dict false false [2]).map
          (fun m' => decide (m'.model_args = m.model_args)))) = Except.ok false := by
  decide

/-- C5 (amended): for every successfully constructed model `m`,
`from_dict (m.as_dict)` succeeds and yields a model whose weights equal
`m`'s and whose construction arguments equal `m`'s except the device, which
is replaced by `mps` when MPS is available and `cpu` otherwise. -/
theorem from_dict_as_dict_roundtrip (a : ModelArgs) (w fresh : Weights) (m : MEGNetCfg)
    (cudaAvailable mpsAvailable : Bool)
    (hm : megnetInit a w = Except.ok m) :
    ∃ m', MEGNet_from_dict m.as_dict cudaAvailable mpsAvailable fresh = Except.ok m'
      ∧ m'.weights = m.weights
      ∧ m'.model_args =
          { m.model_args with device := some (fromDictDevice cudaAvailable mpsAvailable) } := by
  obtain ⟨act, bid, bod, hact, hh, hc, hmEq⟩ := megnetInit_ok_inv a w m hm
  subst hmEq
  have hinit : megnetInit
      (fromDictArgs (megnetCfgOf a w act bid bod).as_dict cudaAvailable mpsAvailable) fresh
      = Except.ok (megnetCfgOf
          (fromDictArgs (megnetCfgOf a w act bid bod).as_dict cudaAvailable mpsAvailable)
          fresh act bid bod) :=
    megnetInit_ok_of _ fresh act bid bod hact hh hc
  refine ⟨{ megnetCfgOf
      (fromDictArgs (megnetCfgOf a w act bid bod).as_dict cudaAvailable mpsAvailable)
      fresh act bid bod with
        weights := (megnetCfgOf a w act bid bod).as_dict.state_dict }, ?_, rfl, rfl⟩
  unfold MEGNet_from_dict
  rw [hinit]
  rfl

/-- C5 witness: round trip at the standard arguments with MPS available;
the weights survive and the stored device is `mps`. -/
theorem c5_witness :
    ((megnetInit stdArgs [5]).bind
        (fun m => MEGNet_from_dict m.as_dict false true [7])).map
      (fun m' => (m'.weights, m'.model_args.device)) =
      Except.ok ([5], some Device.mps) := by
  have hm : megnetInit stdArgs [5] = Except.ok (megnetCfgOf stdArgs [5] Activation.silu 32 32) :=
    megnetInit_ok_of stdArgs [5] Activation.silu 32 32 rfl rfl rfl
  obtain ⟨m', h1, h2, h3⟩ := from_dict_as_dict_roundtrip stdArgs [5] [7]
    (megnetCfgOf stdArgs [5] Activation.silu 32 32) false true hm
  rw [hm]
  show (MEGNet_from_dict (megnetCfgOf stdArgs [5] Activation.silu 32 32).as_dict false true
      [7]).map (fun m' => (m'.weights, m'.model_args.device)) =
      Except.ok ([5], some Device.mps)
  rw [h1]
  show Except.ok (m'.weights, m'.model_args.device) = Except.ok ([5], some Device.mps)
  rw [h2, h3]
  rfl

/-- Running the block loop with identity graph transformations: every index
lookup is in bounds and the graph comes out of the loop unchanged. -/
theorem runBlocks_replicate_id {G : Type} (k : ℕ) :
    ∀ (bl : List (G → Feat → Feat → Feat → Feat × Feat × Feat)) (i : ℕ)
      (g : G) (e n s : Feat), i + bl.length ≤ k →
      ∃ e' n' s',
        runBlocks (List.replicate k (fun g => g)) bl g e n s i = some (g, e', n', s') := by
  intro bl
  induction bl with
  | nil => exact fun i g e n s _ => ⟨e, n, s, rfl⟩
  | cons b t ih =>
    intro i g e n s h
    have hi : i < k := by simp only [List.length_cons] at h; omega
    have hget : (List.replicate k (fun (g : G) => g)).get? i = some (fun g => g) := by
      simp [List.get?_eq_getElem?, List.getElem?_replicate, hi]
    rw [runBlocks, hget]
    rcases hb : b g e n s with ⟨e1, n1, s1⟩
    simp only [hb]
    exact ih (i + 1) g e1 n1 s1 (by simp only [List.length_cons] at h; omega)

/-- C10: when `graph_transformations` is `None` at construction, the model
stores exactly `num_blocks` `Identity()` transformations; every per-block
access `graph_transformations[i]` with `i < num_blocks` is in bounds and
yields `Identity()`, and running any block list of length at most
`num_blocks` through the loop succeeds and leaves the graph unchanged. -/
theorem default_graph_transformations_safe (a : ModelArgs) (w : Weights) (m : MEGNetCfg)
    (hgt : a.graph_transformations = none)
    (hm : megnetInit a w = Except.ok m) :
    m.graph_transformations = List.replicate a.num_blocks GTrans.identity
    ∧ (∀ i, i < a.num_blocks → m.graph_transformations.get? i = some GTrans.identity)
    ∧ (∀ (G : Type) (env : ℕ → G → G)
        (bl : List (G → Feat → Feat → Feat → Feat × Feat × Feat)) (g : G) (e n s : Feat),
        bl.length ≤ a.num_blocks →
        ∃ e' n' s',
          runBlocks (m.graph_transformations.map (applyGTrans env)) bl g e n s 0 =
            some (g, e', n', s')) := by
  obtain ⟨act, bid, bod, _, _, _, hmEq⟩ := megnetInit_ok_inv a w m hm
  subst hmEq
  have hrep : (megnetCfgOf a w act bid bod).graph_transformations =
      List.replicate a.num_blocks GTrans.identity := by
    simp [megnetCfgOf, hgt]
  refine ⟨hrep, ?_, ?_⟩
  · intro i hi
    rw [hrep]
    simp [List.get?_eq_getElem?, List.getElem?_replicate, hi]
  · intro G env bl g e n s hbl
    rw [hrep]
    have hmap : (List.replicate a.num_blocks GTrans.identity).map (applyGTrans env) =
        List.replicate a.num_blocks (fun (g : G) => g) := by
      rw [List.map_replicate]
      rfl
    rw [hmap]
    exact runBlocks_replicate_id a.num_blocks bl 0 g e n s (by omega)

/-- C10 witness: at the standard arguments (`graph_transformations = None`,
`num_blocks = 3`) the stored list is three `Identity()` entries, and a
concrete two-block loop returns the input graph unchanged. -/
theorem c10_witness :
    (megnetInit stdArgs []).toOption.map MEGNetCfg.graph_transformations =
        some [GTrans.identity, GTrans.identity, GTrans.identity]
    ∧ (runBlocks (List.replicate 3 (fun (g : Bool) => g))
          [fun _ e n s => (e, n, s), fun _ e n s => (s, e, n)] true [1] [2] [3] 0).map
        (fun r => r.1) = some true := by
  have hm : megnetInit stdArgs [] = Except.ok (megnetCfgOf stdArgs [] Activation.silu 32 32) :=
    megnetInit_ok_of stdArgs [] Activation.silu 32 32 rfl rfl rfl
  obtain ⟨h1, _, h3⟩ := default_graph_transformations_safe stdArgs []
    (megnetCfgOf stdArgs [] Activation.silu 32 32) rfl hm
  constructor
  · rw [hm]
    simp [Except.toOption, h1]
    rfl
  · obtain ⟨e', n', s', hrun⟩ := h3 Bool (fun _ g => g)
      [fun _ e n s => (e, n, s), fun _ e n s => (s, e, n)] true [1] [2] [3] (by decide)
    have hrw : (megnetCfgOf stdArgs [] Activation.silu 32 32).graph_transformations.map
        (applyGTrans (fun _ (g : Bool) => g)) = List.replicate 3 (fun (g : Bool) => g) := by
      rw [h1]
      rfl
    rw [hrw] at hrun
    rw [hrun]
    rfl

/-- A concrete model exercising the `include_states = True` branch of
`forward`: the state encoder is not the identity, everything else is
trivial. -/
def c4model : MEGNetModel Unit Unit :=
  { edge_embed := fun v => v
    node_embed := fun v => v
    attr_embed := fun v => v
    edge_encoder := fun v => v
    node_encoder := fun v => v
    attr_encoder := fun v => 0 :: v
    graph_transformations := []
    blocks := []
    node_s2s := fun _ v => v
    edge_s2s := fun _ v => v
    dropout := none
    output_proj := fun v => v
    is_classification := false
    include_states := true }

/-- C4: the claim as stated is false — `forward` does not always encode the
state features: when `include_states` is true the state vector only passes
through `attr_embed`, skipping `attr_encoder`, so the code's forward pass
differs from the claimed pipeline at a concrete model and input. -/
theorem c4_counterexample :
    megforward (fun v => v) c4model () [] [] [1] () ≠
      megforwardSpec (fun v => v) c4model () [] [] [1] () := by
  decide

/-- C4 (amended): `forward` is exactly the claimed pipeline — encode,
`num_blocks` blocks each preceded by its graph transformation and fed the
previous block's outputs, `Set2Set`/`EdgeSet2Set` pooling, concatenation
with the state vector, output projection, final sigmoid exactly when
`is_classification` — except that the state features are passed through the
state encoder only when `include_states` is false; when it is true they are
only embedded. -/
theorem forward_pipeline (G σ : Type) (sigmoid : Feat → Feat) (m : MEGNetModel G σ)
    (graph : G) (edge_feat node_feat graph_attr : Feat) (noise : σ) :
    megforward sigmoid m graph edge_feat node_feat graph_attr noise =
      megforwardSpecAmended sigmoid m graph edge_feat node_feat graph_attr noise := by
  unfold megforward megforwardSpecAmended encodeStageAmended readoutStageSpec
  cases h : runBlocks m.graph_transformations m.blocks graph
      (m.edge_encoder (m.edge_embed edge_feat)) (m.node_encoder (m.node_embed node_feat))
      (if m.include_states then m.attr_embed graph_attr
        else m.attr_encoder (m.attr_embed graph_attr)) 0 with
  | none => simp [h]
  | some r => simp [h]

/-- C6: with dropout disabled, `forward` is a deterministic function of its
inputs — the only stochastic sub-module is `Dropout`, and it is skipped. -/
theorem forward_deterministic (G σ : Type) (sigmoid : Feat → Feat) (m : MEGNetModel G σ)
    (graph : G) (edge_feat node_feat graph_attr : Feat) (noise₁ noise₂ : σ)
    (hd : m.dropout = none) :
    megforward sigmoid m graph edge_feat node_feat graph_attr noise₁ =
      megforward sigmoid m graph edge_feat node_feat graph_attr noise₂ := by
  unfold megforward
  cases h : runBlocks m.graph_transformations m.blocks graph
      (m.edge_encoder (m.edge_embed edge_feat)) (m.node_encoder (m.node_embed node_feat))
      (if m.include_states then m.attr_embed graph_attr
        else m.attr_encoder (m.attr_embed graph_attr)) 0 with
  | none => simp [h]
  | some r => simp [h, hd]

/-- A trivial dropout-free model over natural-number noise, for the C6
witness. -/
def c6model : MEGNetModel Unit ℕ :=
  { edge_embed := fun v => v
    node_embed := fun v => v
    attr_embed := fun v => v
    edge_encoder := fun v => v
    node_encoder := fun v => v
    attr_encoder := fun v => v
    graph_transformations := []
    blocks := []
    node_s2s := fun _ v => v
    edge_s2s := fun _ v => v
    dropout := none
    output_proj := fun v => v
    is_classification := true
    include_states := false }

/-- C6 witness: the determinism theorem applied at a concrete model and two
different noise values. -/
theorem c6_witness :
    megforward (fun v => v) c6model () [1] [2] [3] 0 =
      megforward (fun v => v) c6model () [1] [2] [3] 1 :=
  forward_deterministic Unit ℕ (fun v => v) c6model () [1] [2] [3] 0 1 rfl

/-- C7: `forward` never modifies the model object: in state-passing form the
model component of the result — every sub-module and configuration flag — is
the model the call started from (`forward` reads attributes of `self` but
assigns none). -/
theorem forward_preserves_model (G σ : Type) (sigmoid : Feat → Feat) (m : MEGNetModel G σ)
    (graph : G) (edge_feat node_feat graph_attr : Feat) (noise : σ) :
    (megforwardM sigmoid m graph edge_feat node_feat graph_attr noise).1 = m
    ∧ (megforwardM sigmoid m graph edge_feat node_feat graph_attr noise).1.edge_embed
        = m.edge_embed
    ∧ (megforwardM sigmoid m graph edge_feat node_feat graph_attr noise).1.node_embed
        = m.node_embed
    ∧ (megforwardM sigmoid m graph edge_feat node_feat graph_attr noise).1.attr_embed
        = m.attr_embed
    ∧ (megforwardM sigmoid m graph edge_feat node_feat graph_attr noise).1.edge_encoder
        = m.edge_encoder
    ∧ (megforwardM sigmoid m graph edge_feat node_feat graph_attr noise).1.node_encoder
        = m.node_encoder
    ∧ (megforwardM sigmoid m graph edge_feat node_feat graph_attr noise).1.attr_encoder
        = m.attr_encoder
    ∧ (megforwardM sigmoid m graph edge_feat node_feat graph_attr noise).1.graph_transformations
        = m.graph_transformations
    ∧ (megforwardM sigmoid m graph edge_feat node_feat graph_attr noise).1.blocks = m.blocks
    ∧ (megforwardM sigmoid m graph edge_feat node_feat graph_attr noise).1.node_s2s = m.node_s2s
    ∧ (megforwardM sigmoid m graph edge_feat node_feat graph_attr noise).1.edge_s2s = m.edge_s2s
    ∧ (megforwardM sigmoid m graph edge_feat node_feat graph_attr noise).1.dropout = m.dropout
    ∧ (megforwardM sigmoid m graph edge_feat node_feat graph_attr noise).1.output_proj
        = m.output_proj
    ∧ (megforwardM sigmoid m graph edge_feat node_feat graph_attr noise).1.is_classification
        = m.is_classification
    ∧ (megforwardM sigmoid m graph edge_feat node_feat graph_attr noise).1.include_states
        = m.include_states :=
  ⟨rfl, rfl, rfl, rfl, rfl, rfl, rfl, rfl, rfl, rfl, rfl, rfl, rfl, rfl, rfl⟩
